import Mathlib

/-!
Verification of the LLM-connection layer of hackingBuddyGPT.

Shallow embedding of:
  * `src/hackingBuddyGPT/utils/openai/openai_llm.py` (`OpenAIConnection`):
    the raw-HTTP REST path with its recursive retry/backoff controller;
  * `src/hackingBuddyGPT/utils/openai/openai_lib.py` (`OpenAILib`):
    the client-library path with the streaming accumulator, tokenizer
    binding, `encode` and `count_tokens`.

External libraries (tiktoken, the Vertex AI tokenizer) are not repository
code; they are modelled as an opaque environment of encoder/counter
functions (`TokEnv`).  The network transport is modelled as a scripted
list of per-attempt outcomes.
-/

set_option maxRecDepth 10000

/-- Environment of external tokenizer libraries.
`tiktokenEncode m q` models `tiktoken.encoding_for_model(m).encode(q)`;
`vertexEncode m q` models `get_tokenizer_for_model(m).encode(q).tokens`;
`vertexCount m q` models `get_tokenizer_for_model(m).count_tokens(q).total_tokens`. -/
structure TokEnv where
  tiktokenEncode : String → String → List Nat
  vertexEncode : String → String → List Nat
  vertexCount : String → String → Nat

/-- The usage field of a response body: `usage.prompt_tokens` /
`usage.completion_tokens`. -/
structure UsageField where
  prompt_tokens : Nat
  completion_tokens : Nat
deriving DecidableEq, Repr

/-- Whether the first character list is a prefix of the second. -/
def listIsPrefixB : List Char → List Char → Bool
  | [], _ => true
  | _ :: _, [] => false
  | a :: as, b :: bs => a == b && listIsPrefixB as bs

/-- Whether `needle` occurs as a contiguous sublist of `hay`
(an empty needle occurs everywhere, as in Python). -/
def containsSub : List Char → List Char → Bool
  | [], needle => needle.isEmpty
  | h :: t, needle => listIsPrefixB needle (h :: t) || containsSub t needle

/-- Replace every non-overlapping occurrence of the non-empty pattern
`pat` by `sub`, left to right, as Python's `str.replace`.  `fuel`
bounds the recursion; it never runs out when started at the list's
length because each step consumes at least one character. -/
def replaceFuel (pat sub : List Char) : Nat → List Char → List Char
  | _, [] => []
  | 0, l => l
  | f + 1, h :: t =>
    if !pat.isEmpty && listIsPrefixB pat (h :: t) then
      sub ++ replaceFuel pat sub f (List.drop (pat.length - 1) t)
    else
      h :: replaceFuel pat sub f t

/-- Python's `s.startswith(pre)`. -/
def strStartsWith (s pre : String) : Bool :=
  listIsPrefixB pre.toList s.toList

/-- Substring containment, modelling Python's `needle in hay`. -/
def substrIn (needle hay : String) : Bool :=
  containsSub hay.toList needle.toList

/-- The four OpenRouter-hosted Google model identifiers that
`OpenAIConnection.get_response` / `.encode` special-case
(openai_llm.py lines 90-94 and 107-111). -/
def googleModels : List String :=
  ["google/gemini-flash-1.5-8b-exp",
   "google/gemini-flash-1.5-exp",
   "google/gemini-pro-1.5-exp",
   "google/gemma-2-9b-it:free"]

/-- `any(g in self.model for g in [...])` from openai_llm.py. -/
def googleModelMatch (model : String) : Bool :=
  googleModels.any (fun g => substrIn g model)

/-- `self.model.replace("google/", "")` from openai_llm.py line 96. -/
def stripGoogle (model : String) : String :=
  ⟨replaceFuel "google/".toList [] model.toList.length model.toList⟩

namespace OpenAIConnection

/-- Configuration fields of the `OpenAIConnection` dataclass
(openai_llm.py lines 27-37). -/
structure Config where
  api_key : String
  model : String
  context_size : Nat
  use_openrouter : Bool
  openrouter_base_url : String
  api_url : String
  api_path : String
  api_timeout : Nat
  api_backoff : Nat
  api_retries : Int
deriving DecidableEq, Repr

/-- A parsed 200-response body: the content string of each element of
`choices` (the code reads `choices[0].message.content`), and the
optional `usage` object. -/
structure RestBody where
  choices : List String
  usage : Option UsageField
deriving DecidableEq, Repr

/-- Outcome of one `requests.post` attempt: an HTTP response with a
status code, parsed body and raw text, or one of the two
`requests.exceptions` the code catches. -/
inductive HttpOutcome where
  | response (status : Nat) (body : RestBody) (text : String)
  | connError
  | timeout
deriving DecidableEq, Repr

/-- Failures `get_response` can raise. `retriesExhausted` is the
`Exception("Failed to get response from OpenAI API")` at line 43;
`backendError` is the non-200 exception at line 74; `noUsableChoice`
is the uncaught IndexError from `response['choices'][0]` at line 87
(the spec's `MalformedResponse`). -/
inductive RestError where
  | retriesExhausted
  | backendError (gateway : String) (status : Nat) (text : String)
  | noUsableChoice
deriving DecidableEq, Repr

/-- The fields of the `LLMResult` this path constructs that the claims
speak about (content, token counts). -/
structure RestResult where
  content : String
  tokens_query : Nat
  tokens_response : Nat
deriving DecidableEq, Repr

/-- Observable trace of one `get_response` call: its outcome, the number
of HTTP requests issued, and the sequence of `time.sleep` durations in
order. -/
structure RestRun where
  result : Except RestError RestResult
  attempts : Nat
  sleeps : List Nat
deriving Repr

/-- Token-count resolution on the 200 path (openai_llm.py lines 89-101):
OpenRouter-routed Google models use the Vertex tokenizer on
`(prompt, result)`; everything else reads the body's `usage` field,
defaulting to 0 when absent. -/
def restTokenCounts (cfg : Config) (env : TokEnv) (prompt result0 : String)
    (body : RestBody) : Nat × Nat :=
  if cfg.use_openrouter && googleModelMatch cfg.model then
    (env.vertexCount (stripGoogle cfg.model) prompt,
     env.vertexCount (stripGoogle cfg.model) result0)
  else
    ((body.usage.map UsageField.prompt_tokens).getD 0,
     (body.usage.map UsageField.completion_tokens).getD 0)

/-- `OpenAIConnection.get_response` (openai_llm.py lines 41-102), with
the transport modelled as a scripted list of per-attempt outcomes
consumed in order.  `retry` is the keyword argument of the recursive
self-call.  Returns `none` only when the script runs out of outcomes
before the code would stop (a modelling artifact, never program
behaviour).  Sleeps: 429 sleeps `api_backoff` (line 69), connection
error sleeps 5 (line 78), timeout does not sleep (lines 81-83). -/
def get_response (cfg : Config) (env : TokEnv) (prompt : String)
    (outs : List HttpOutcome) (retry : Int) : Option RestRun :=
  if cfg.api_retries ≤ retry then
    some { result := .error .retriesExhausted, attempts := 0, sleeps := [] }
  else
    match outs with
    | [] => none
    | o :: rest =>
      match o with
      | .response status body text =>
        if status = 429 then
          (get_response cfg env prompt rest (retry + 1)).map fun r =>
            { result := r.result, attempts := r.attempts + 1,
              sleeps := cfg.api_backoff :: r.sleeps }
        else if status ≠ 200 then
          some { result := .error (.backendError
                   (if cfg.use_openrouter then "OpenRouter" else "OpenAI Gateway")
                   status text),
                 attempts := 1, sleeps := [] }
        else
          match body.choices with
          | [] =>
            some { result := .error .noUsableChoice, attempts := 1, sleeps := [] }
          | result0 :: _ =>
            let tq := (restTokenCounts cfg env prompt result0 body).1
            let tr := (restTokenCounts cfg env prompt result0 body).2
            some { result := .ok { content := result0, tokens_query := tq,
                                   tokens_response := tr },
                   attempts := 1, sleeps := [] }
      | .connError =>
        (get_response cfg env prompt rest (retry + 1)).map fun r =>
          { result := r.result, attempts := r.attempts + 1,
            sleeps := 5 :: r.sleeps }
      | .timeout =>
        (get_response cfg env prompt rest (retry + 1)).map fun r =>
          { result := r.result, attempts := r.attempts + 1,
            sleeps := r.sleeps }

/-- `OpenAIConnection.encode` (openai_llm.py lines 105-120):
OpenRouter-routed Google models use the Vertex tokenizer, `gpt-`
prefixed models use their tiktoken encoder, and everything else falls
back to the `gpt-3.5-turbo` tiktoken encoder. -/
def encode (cfg : Config) (env : TokEnv) (query : String) : List Nat :=
  if cfg.use_openrouter && googleModelMatch cfg.model then
    env.vertexEncode (stripGoogle cfg.model) query
  else if strStartsWith cfg.model "gpt-" then
    env.tiktokenEncode cfg.model query
  else
    env.tiktokenEncode "gpt-3.5-turbo" query

end OpenAIConnection

namespace OpenAILib

/-- Configuration fields of the `OpenAILib` dataclass
(openai_lib.py lines 30-37). -/
structure Config where
  api_key : String
  model : String
  context_size : Nat
  use_openrouter : Bool
  openrouter_base_url : String
  api_url : String
  api_timeout : Nat
  api_retries : Int
deriving DecidableEq, Repr

/-- Whether `init` (openai_lib.py lines 46-49) binds a tokenizer for
this configuration: OpenRouter with a `google/` model binds the Vertex
tokenizer, direct provider with a `gpt-` model binds tiktoken. -/
def hasTokenizer (cfg : Config) : Bool :=
  (cfg.use_openrouter && strStartsWith cfg.model "google/") ||
  (!cfg.use_openrouter && strStartsWith cfg.model "gpt-")

/-- Token-count computation shared verbatim by `get_response`
(lines 99-111) and `stream_response` (lines 196-208): if a tokenizer is
bound, re-branch on the binding conditions; otherwise `(0, 0)`.  The
response's usage data is never an input. -/
def libTokenCounts (cfg : Config) (env : TokEnv) (promptStr contentStr : String) :
    Nat × Nat :=
  if hasTokenizer cfg then
    if cfg.use_openrouter && strStartsWith cfg.model "google/" then
      (env.vertexCount (stripGoogle cfg.model) promptStr,
       env.vertexCount (stripGoogle cfg.model) contentStr)
    else if !cfg.use_openrouter && strStartsWith cfg.model "gpt-" then
      ((env.tiktokenEncode cfg.model promptStr).length,
       (env.tiktokenEncode cfg.model contentStr).length)
    else (0, 0)
  else (0, 0)

/-- `OpenAILib.encode` (openai_lib.py lines 220-226): consult the bound
tokenizer when present, otherwise return the empty list. -/
def encode (cfg : Config) (env : TokEnv) (query : String) : List Nat :=
  if hasTokenizer cfg then
    if cfg.use_openrouter && strStartsWith cfg.model "google/" then
      env.vertexEncode (stripGoogle cfg.model) query
    else if !cfg.use_openrouter && strStartsWith cfg.model "gpt-" then
      env.tiktokenEncode cfg.model query
    else []
  else []

/-- `OpenAILib.count_tokens` (openai_lib.py lines 228-229). -/
def count_tokens (cfg : Config) (env : TokEnv) (query : String) : Nat :=
  (encode cfg env query).length

/-- One accumulated tool call
(`ChatCompletionMessageToolCall` with its `Function`). -/
structure ToolCall where
  id : Option String
  name : Option String
  arguments : String
deriving DecidableEq, Repr

/-- One tool-call fragment inside a streamed delta
(`delta.tool_calls[k]`). -/
structure ToolCallDelta where
  index : Nat
  id : Option String
  name : Option String
  arguments : String
deriving DecidableEq, Repr

/-- The delta of one streamed choice. -/
structure Delta where
  role : Option String
  content : Option String
  tool_calls : Option (List ToolCallDelta)
deriving DecidableEq, Repr

/-- Streaming usage tally (`CompletionUsage`). -/
structure Usage where
  prompt_tokens : Nat
  completion_tokens : Nat
  total_tokens : Nat
deriving DecidableEq, Repr

/-- One streamed chunk (`ChatCompletionChunk`): its choices' deltas and
an optional usage tally. -/
structure Chunk where
  choices : List Delta
  usage : Option Usage
deriving DecidableEq, Repr

/-- The in-progress assistant message built by the stream loop
(openai_lib.py line 137). -/
structure PartialMessage where
  role : String
  content : String
  tool_calls : List ToolCall
deriving DecidableEq, Repr

/-- The finalized assistant message: after the stream ends the tool-call
list is replaced by `none` when still empty (lines 190-191). -/
structure FinalMessage where
  role : String
  content : String
  tool_calls : Option (List ToolCall)
deriving DecidableEq, Repr

/-- Append `extra` to the arguments of the tool call at position `i`,
modelling `message.tool_calls[i].function.arguments += extra`
(openai_lib.py line 175). -/
def appendArgsAt : List ToolCall → Nat → String → List ToolCall
  | [], _, _ => []
  | t :: ts, 0, extra => { t with arguments := t.arguments ++ extra } :: ts
  | t :: ts, i + 1, extra => t :: appendArgsAt ts i extra

/-- The `for tool_call in delta.tool_calls` loop (lines 161-176).  A
fragment whose index equals the current count appends a fresh
`ToolCall` initialized with the fragment's id, name and arguments, and
then line 175 appends the same arguments delta again; a fragment whose
index is below the count only appends its arguments; a fragment whose
index is above the count hits the bare `return` at line 166, modelled
as `none`. -/
def processToolCalls (msg : PartialMessage) :
    List ToolCallDelta → Option PartialMessage
  | [] => some msg
  | tc :: rest =>
    if msg.tool_calls.length ≤ tc.index then
      if msg.tool_calls.length ≠ tc.index then
        none
      else
        let started : PartialMessage := { msg with tool_calls := msg.tool_calls ++
          [{ id := tc.id, name := tc.name, arguments := tc.arguments }] }
        processToolCalls
          { started with
            tool_calls := appendArgsAt started.tool_calls tc.index tc.arguments }
          rest
    else
      processToolCalls
        { msg with
          tool_calls := appendArgsAt msg.tool_calls tc.index tc.arguments }
        rest

/-- The body of the `for chunk in chunks` loop (lines 140-183) for one
chunk: append any content delta to the message, route any tool-call
fragments, and let a usage-bearing chunk overwrite the running tally.
A role change only prints a warning and leaves the message role
untouched (lines 147-148).  `none` means the loop body executed the
bare `return` (gap violation), in which case the usage update is never
reached. -/
def processChunk (msg : PartialMessage) (usage : Option Usage) (c : Chunk) :
    Option (PartialMessage × Option Usage) :=
  let msgStep : Option PartialMessage :=
    match c.choices with
    | [] => some msg
    | delta :: _ =>
      let m1 := match delta.content with
        | some s => { msg with content := msg.content ++ s }
        | none => msg
      match delta.tool_calls with
      | some tcs => if tcs.length > 0 then processToolCalls m1 tcs else some m1
      | none => some m1
  match msgStep with
  | none => none
  | some m2 => some (m2, match c.usage with | some u => some u | none => usage)

/-- Run the chunk loop: returns how many chunks were yielded and, unless
the loop aborted via the bare `return`, the accumulated message and
usage.  A chunk is yielded (line 183) only after its loop body
completed, so the aborting chunk is not counted. -/
def streamLoop (n : Nat) (msg : PartialMessage) (usage : Option Usage) :
    List Chunk → Nat × Option (PartialMessage × Option Usage)
  | [] => (n, some (msg, usage))
  | c :: rest =>
    match processChunk msg usage c with
    | none => (n, none)
    | some (m2, u2) => streamLoop (n + 1) m2 u2 rest

/-- Errors the spec's taxonomy assigns to the streaming path.  The
constructor exists so that the spec's expectation is statable; the
translated code never raises it (the gap branch is a bare `return`). -/
inductive StreamError where
  | streamProtocolError
deriving DecidableEq, Repr

/-- The terminal `LLMResult` yielded at the end of a completed stream
(lines 210-217): the finalized message, its content, and the token
counts computed by `libTokenCounts`. -/
structure StreamFinal where
  message : FinalMessage
  content : String
  tokens_query : Nat
  tokens_response : Nat
  resolvedUsage : Usage
deriving DecidableEq, Repr

/-- Observable outcome of one `stream_response` call: the number of
chunks yielded, any exception propagating out of the generator, whether
the missing-usage warning fired, and the terminal result (`none` when
the generator returned early on a gap violation, discarding the partial
message). -/
structure StreamRun where
  yielded : Nat
  raised : Option StreamError
  usageWarning : Bool
  final : Option StreamFinal
deriving DecidableEq, Repr

/-- The empty assistant message the stream loop starts from
(openai_lib.py line 137). -/
def initMessage : PartialMessage :=
  { role := "assistant", content := "", tool_calls := [] }

/-- `OpenAILib.stream_response` (openai_lib.py lines 122-218) over a
scripted chunk sequence.  On a gap violation the generator stops
without raising and yields no terminal result; otherwise it substitutes
a zero usage tally when none was seen, nulls out an empty tool-call
list, computes token counts from the tokenizer binding alone, and
yields one terminal result. -/
def stream_response (cfg : Config) (env : TokEnv) (promptStr : String)
    (chunks : List Chunk) : StreamRun :=
  match streamLoop 0 initMessage none chunks with
  | (n, none) =>
    { yielded := n, raised := none, usageWarning := false, final := none }
  | (n, some (msg, u)) =>
    let warn := u.isNone
    let u0 := u.getD { prompt_tokens := 0, completion_tokens := 0, total_tokens := 0 }
    let tcs : Option (List ToolCall) :=
      if msg.tool_calls.length = 0 then none else some msg.tool_calls
    let counts := libTokenCounts cfg env promptStr msg.content
    { yielded := n, raised := none, usageWarning := warn,
      final := some
        { message := { role := msg.role, content := msg.content, tool_calls := tcs },
          content := msg.content,
          tokens_query := counts.1,
          tokens_response := counts.2,
          resolvedUsage := u0 } }

/-- The message-and-usage part of a non-streaming client-library
response (`response.choices[*].message` plus `response.usage`). -/
structure LibResponse where
  choices : List FinalMessage
  usage : Option UsageField
deriving DecidableEq, Repr

/-- The fields of the `LLMResult` constructed by `OpenAILib.get_response`
that the claims speak about. -/
structure LibResult where
  message : FinalMessage
  content : String
  tokens_query : Nat
  tokens_response : Nat
deriving DecidableEq, Repr

/-- Failures of `OpenAILib.get_response`: `noUsableChoice` is the
uncaught IndexError from `response.choices[0]` at line 97. -/
inductive LibError where
  | noUsableChoice
deriving DecidableEq, Repr

/-- `OpenAILib.get_response` (openai_lib.py lines 59-120): take the
first choice's message and compute token counts from the tokenizer
binding; the response's usage field is never consulted. -/
def get_response (cfg : Config) (env : TokEnv) (promptStr : String)
    (resp : LibResponse) : Except LibError LibResult :=
  match resp.choices with
  | [] => .error .noUsableChoice
  | m :: _ =>
    let counts := libTokenCounts cfg env promptStr m.content
    .ok { message := m, content := m.content,
          tokens_query := counts.1, tokens_response := counts.2 }

end OpenAILib

/-- Concrete tokenizer environment for witnesses and counterexamples:
both encoders emit one token per character (its code point) and both
counters return the character count. -/
def envTest : TokEnv :=
  { tiktokenEncode := fun _ q => q.toList.map Char.toNat,
    vertexEncode := fun _ q => q.toList.map Char.toNat,
    vertexCount := fun _ q => q.length }

/-- Concrete direct-provider REST configuration with a given retry
budget (the other fields are the dataclass defaults). -/
def restCfgDirect (retries : Int) : OpenAIConnection.Config :=
  { api_key := "key", model := "gpt-4", context_size := 8192,
    use_openrouter := false,
    openrouter_base_url := "https://openrouter.ai/api/v1",
    api_url := "https://api.openai.com", api_path := "/v1/chat/completions",
    api_timeout := 240, api_backoff := 60, api_retries := retries }

/-- Concrete OpenRouter-routed Gemma configuration (mirrors the
`Gemma29bItFree` subclass of openai_llm.py lines 172-178). -/
def restCfgGemma : OpenAIConnection.Config :=
  { restCfgDirect 3 with model := "google/gemma-2-9b-it:free",
                         use_openrouter := true }

/-- Concrete REST configuration whose model matches no tokenizer
binding (not a `google/` OpenRouter model, not `gpt-` prefixed). -/
def restCfgLlama : OpenAIConnection.Config :=
  { restCfgDirect 3 with model := "llama-3" }

/-- Concrete successful single-choice response body carrying a usage
field of (10, 5). -/
def bodyAnswer : OpenAIConnection.RestBody :=
  { choices := ["answer"],
    usage := some { prompt_tokens := 10, completion_tokens := 5 } }

/-- C1: the claim says that with `api_retries = 3` and three 429s
followed by a 200, `get_response` succeeds on the fourth attempt after
three backoff sleeps, and that with `api_retries = 2` and unbroken 429s
it fails after 3 total attempts.  The code instead checks
`retry >= api_retries` with `retry` starting at 0, so only
`api_retries` total attempts ever happen: with budget 3 the run raises
the retries-exhausted exception after 3 attempts and 3 sleeps of the
60-second backoff, never issuing the fourth request; with budget 2 and
unbroken 429s it raises after 2 total attempts and 2 sleeps. -/
theorem c1_retry_budget_off_by_one :
    (OpenAIConnection.get_response (restCfgDirect 3) envTest "prompt"
        [.response 429 bodyAnswer "", .response 429 bodyAnswer "",
         .response 429 bodyAnswer "", .response 200 bodyAnswer ""] 0
      = some { result := .error .retriesExhausted, attempts := 3,
               sleeps := [60, 60, 60] })
    ∧ (OpenAIConnection.get_response (restCfgDirect 2) envTest "prompt"
        (List.replicate 5 (.response 429 bodyAnswer "")) 0
      = some { result := .error .retriesExhausted, attempts := 2,
               sleeps := [60, 60] }) :=
  ⟨rfl, rfl⟩

/-- C10: when the configured retry count is zero or negative,
`get_response` raises immediately on entry: no HTTP request is issued
(`attempts = 0`), no sleep occurs, and no `LLMResult` is constructed
(the outcome is the retries-exhausted error). -/
theorem c10_nonpositive_retries_immediate (cfg : OpenAIConnection.Config)
    (env : TokEnv) (prompt : String) (outs : List OpenAIConnection.HttpOutcome)
    (h : cfg.api_retries ≤ 0) :
    OpenAIConnection.get_response cfg env prompt outs 0
      = some { result := .error .retriesExhausted, attempts := 0, sleeps := [] } := by
  rw [OpenAIConnection.get_response.eq_def, if_pos h]

/-- Witness for C10 at a concrete zero-retry configuration with a
healthy response available on the wire: the request is still never
issued. -/
theorem c10_nonpositive_retries_immediate_witness :
    OpenAIConnection.get_response (restCfgDirect 0) envTest "prompt"
        [.response 200 bodyAnswer ""] 0
      = some { result := .error .retriesExhausted, attempts := 0, sleeps := [] } :=
  c10_nonpositive_retries_immediate (restCfgDirect 0) envTest "prompt"
    [.response 200 bodyAnswer ""] (by decide)

/-- C5: a 200 response whose envelope contains zero choices fails
immediately with the no-usable-choice error (the spec's
`MalformedResponse`) after exactly one attempt — no further request and
no backoff sleep — and the client-library path fails the same way on a
zero-choice response. -/
theorem c5_zero_choices_no_retry (cfg : OpenAIConnection.Config) (env : TokEnv)
    (prompt : String) (u : Option UsageField) (t : String)
    (rest : List OpenAIConnection.HttpOutcome) (h : 0 < cfg.api_retries) :
    (OpenAIConnection.get_response cfg env prompt
        (.response 200 { choices := [], usage := u } t :: rest) 0
      = some { result := .error .noUsableChoice, attempts := 1, sleeps := [] })
    ∧ (∀ (lcfg : OpenAILib.Config) (lenv : TokEnv) (p : String)
         (us : Option UsageField),
        OpenAILib.get_response lcfg lenv p { choices := [], usage := us }
          = .error .noUsableChoice) := by
  constructor
  · rw [OpenAIConnection.get_response.eq_def,
        if_neg (by omega : ¬ cfg.api_retries ≤ (0 : Int))]
    simp
  · intro lcfg lenv p us
    rfl

/-- Witness for C5: a concrete zero-choice 200 response against the
default three-retry configuration, with further healthy responses
scripted after it that are never requested. -/
theorem c5_zero_choices_no_retry_witness :
    (OpenAIConnection.get_response (restCfgDirect 3) envTest "prompt"
        (.response 200 { choices := [], usage := some { prompt_tokens := 10, completion_tokens := 5 } } "" ::
          [.response 200 bodyAnswer ""]) 0
      = some { result := .error .noUsableChoice, attempts := 1, sleeps := [] })
    ∧ (∀ (lcfg : OpenAILib.Config) (lenv : TokEnv) (p : String)
         (us : Option UsageField),
        OpenAILib.get_response lcfg lenv p { choices := [], usage := us }
          = .error .noUsableChoice) :=
  c5_zero_choices_no_retry (restCfgDirect 3) envTest "prompt"
    (some { prompt_tokens := 10, completion_tokens := 5 }) ""
    [.response 200 bodyAnswer ""] (by decide)

/-- C6 counterexample: the claim says a request timeout sleeps a short
fixed delay before re-attempting.  With a timeout on the first attempt
and a 200 on the second, the code re-attempts (two requests issued) but
records no sleep at all — the timeout branch has no `time.sleep`. -/
theorem c6_timeout_sleep_counterexample :
    OpenAIConnection.get_response (restCfgDirect 3) envTest "prompt"
        [.timeout, .response 200 bodyAnswer ""] 0
      = some { result := .ok { content := "answer", tokens_query := 10,
                               tokens_response := 5 },
               attempts := 2, sleeps := [] } :=
  rfl

/-- C6 amended: connection-establishment failures and timeouts are both
treated as transient — the identical request is re-attempted with the
retry counter incremented — but only the connection-error branch sleeps
(a fixed 5 seconds, independent of the configured backoff); the timeout
branch re-attempts immediately without sleeping. -/
theorem c6_transient_retry_behaviour (cfg : OpenAIConnection.Config)
    (env : TokEnv) (prompt : String) (outs : List OpenAIConnection.HttpOutcome)
    (retry : Int) (h : retry < cfg.api_retries) :
    (OpenAIConnection.get_response cfg env prompt (.connError :: outs) retry
      = (OpenAIConnection.get_response cfg env prompt outs (retry + 1)).map fun r =>
          { result := r.result, attempts := r.attempts + 1,
            sleeps := 5 :: r.sleeps })
    ∧ (OpenAIConnection.get_response cfg env prompt (.timeout :: outs) retry
      = (OpenAIConnection.get_response cfg env prompt outs (retry + 1)).map fun r =>
          { result := r.result, attempts := r.attempts + 1,
            sleeps := r.sleeps }) := by
  constructor <;>
    rw [OpenAIConnection.get_response.eq_def,
        if_neg (by omega : ¬ cfg.api_retries ≤ retry)]

/-- Witness for the amended C6 at a concrete configuration: one
connection error (respectively one timeout) followed by a success. -/
theorem c6_transient_retry_behaviour_witness :
    (OpenAIConnection.get_response (restCfgDirect 3) envTest "prompt"
        (.connError :: [.response 200 bodyAnswer ""]) 0
      = (OpenAIConnection.get_response (restCfgDirect 3) envTest "prompt"
          [.response 200 bodyAnswer ""] (0 + 1)).map fun r =>
            { result := r.result, attempts := r.attempts + 1,
              sleeps := 5 :: r.sleeps })
    ∧ (OpenAIConnection.get_response (restCfgDirect 3) envTest "prompt"
        (.timeout :: [.response 200 bodyAnswer ""]) 0
      = (OpenAIConnection.get_response (restCfgDirect 3) envTest "prompt"
          [.response 200 bodyAnswer ""] (0 + 1)).map fun r =>
            { result := r.result, attempts := r.attempts + 1,
              sleeps := r.sleeps }) :=
  c6_transient_retry_behaviour (restCfgDirect 3) envTest "prompt"
    [.response 200 bodyAnswer ""] 0 (by decide)

/-- Concrete client-library configuration whose model matches no
tokenizer binding. -/
def libCfgPlain : OpenAILib.Config :=
  { api_key := "key", model := "llama-3", context_size := 4096,
    use_openrouter := false,
    openrouter_base_url := "https://openrouter.ai/api/v1",
    api_url := "https://api.openai.com/v1", api_timeout := 60,
    api_retries := 3 }

/-- C2 counterexample: the claim says that when the backend supplies a
usage source and a tokenizer is also bound, the result carries the
usage source's values.  An OpenRouter Gemma exchange whose 200 response
carries usage (10, 5) while the bound Vertex tokenizer counts 2 for the
prompt "hi" and 3 for the answer "out" produces a result carrying the
tokenizer's counts (2, 3), not the usage source's (10, 5). -/
theorem c2_usage_precedence_counterexample :
    (OpenAIConnection.get_response restCfgGemma envTest "hi"
        [.response 200 { choices := ["out"],
                         usage := some { prompt_tokens := 10, completion_tokens := 5 } } ""] 0
      = some { result := .ok { content := "out", tokens_query := 2,
                               tokens_response := 3 },
               attempts := 1, sleeps := [] })
    ∧ ((2, 3) ≠ ((10, 5) : Nat × Nat)) :=
  ⟨rfl, by decide⟩

/-- C2 amended: token-count resolution gives precedence to the bound
tokenizer, not to the backend-reported usage.  On the REST path, when
the OpenRouter Google-model condition holds the result's counts come
from the Vertex tokenizer regardless of the usage field; only when that
condition fails do the counts come from the usage field (defaulting to
zero).  On the streaming path the terminal result's counts always equal
the tokenizer computation on the accumulated content — the usage chunks
are never consulted for token counts. -/
theorem c2_tokenizer_precedence :
    (∀ (cfg : OpenAIConnection.Config) (env : TokEnv)
       (prompt text c : String) (cs : List String) (u : Option UsageField)
       (retry : Int), retry < cfg.api_retries →
       (cfg.use_openrouter && googleModelMatch cfg.model) = true →
       OpenAIConnection.get_response cfg env prompt
           [.response 200 { choices := (c :: cs), usage := u } text] retry
         = some { result := .ok { content := c,
                                  tokens_query := env.vertexCount (stripGoogle cfg.model) prompt,
                                  tokens_response := env.vertexCount (stripGoogle cfg.model) c },
                  attempts := 1, sleeps := [] })
    ∧ (∀ (cfg : OpenAIConnection.Config) (env : TokEnv)
         (prompt text c : String) (cs : List String) (u : Option UsageField)
         (retry : Int), retry < cfg.api_retries →
         (cfg.use_openrouter && googleModelMatch cfg.model) = false →
         OpenAIConnection.get_response cfg env prompt
             [.response 200 { choices := (c :: cs), usage := u } text] retry
           = some { result := .ok { content := c,
                                    tokens_query := (u.map UsageField.prompt_tokens).getD 0,
                                    tokens_response := (u.map UsageField.completion_tokens).getD 0 },
                    attempts := 1, sleeps := [] })
    ∧ (∀ (cfg : OpenAILib.Config) (env : TokEnv) (prompt : String)
         (chunks : List OpenAILib.Chunk) (f : OpenAILib.StreamFinal),
         (OpenAILib.stream_response cfg env prompt chunks).final = some f →
         (f.tokens_query, f.tokens_response)
           = OpenAILib.libTokenCounts cfg env prompt f.content) := by
  refine ⟨?_, ?_, ?_⟩
  · intro cfg env prompt text c cs u retry h hg
    rw [OpenAIConnection.get_response.eq_def,
        if_neg (by omega : ¬ cfg.api_retries ≤ retry)]
    simp [OpenAIConnection.restTokenCounts, hg]
  · intro cfg env prompt text c cs u retry h hg
    rw [OpenAIConnection.get_response.eq_def,
        if_neg (by omega : ¬ cfg.api_retries ≤ retry)]
    simp [OpenAIConnection.restTokenCounts, hg]
  · intro cfg env prompt chunks f hf
    unfold OpenAILib.stream_response at hf
    rcases hsl : OpenAILib.streamLoop 0 OpenAILib.initMessage none chunks with ⟨n, r⟩
    rw [hsl] at hf
    cases r with
    | none => simp at hf
    | some mu =>
      obtain ⟨msg, u⟩ := mu
      simp at hf
      rw [← hf]

/-- Witness for the amended C2: the Gemma configuration exercises the
tokenizer branch, the direct gpt-4 configuration exercises the usage
branch, and an empty stream exercises the streaming conjunct. -/
theorem c2_tokenizer_precedence_witness :
    (OpenAIConnection.get_response restCfgGemma envTest "hi"
        [.response 200 { choices := ("out" :: []),
                         usage := some { prompt_tokens := 10, completion_tokens := 5 } } ""] 0
      = some { result := .ok { content := "out",
                               tokens_query := envTest.vertexCount (stripGoogle restCfgGemma.model) "hi",
                               tokens_response := envTest.vertexCount (stripGoogle restCfgGemma.model) "out" },
               attempts := 1, sleeps := [] })
    ∧ (OpenAIConnection.get_response (restCfgDirect 3) envTest "hi"
        [.response 200 { choices := ("out" :: []),
                         usage := some { prompt_tokens := 10, completion_tokens := 5 } } ""] 0
      = some { result := .ok { content := "out",
                               tokens_query := ((some { prompt_tokens := 10, completion_tokens := 5 } : Option UsageField).map UsageField.prompt_tokens).getD 0,
                               tokens_response := ((some { prompt_tokens := 10, completion_tokens := 5 } : Option UsageField).map UsageField.completion_tokens).getD 0 },
               attempts := 1, sleeps := [] })
    ∧ (((OpenAILib.stream_response libCfgPlain envTest "hi" []).final.map
          OpenAILib.StreamFinal.tokens_query)
        = some (OpenAILib.libTokenCounts libCfgPlain envTest "hi" "").1) :=
  ⟨(c2_tokenizer_precedence.1 restCfgGemma envTest "hi" "" "out" [] _ 0
      (by decide) (by rfl)),
   (c2_tokenizer_precedence.2.1 (restCfgDirect 3) envTest "hi" "" "out" [] _ 0
      (by decide) (by rfl)),
   by
     have h := c2_tokenizer_precedence.2.2 libCfgPlain envTest "hi" []
     rfl⟩

/-- C7 counterexample: the claim says a connection with no recognized
tokenizer binding returns an empty sequence from `encode`.
`OpenAIConnection.encode` on the unrecognized model "llama-3" instead
falls back to the default `gpt-3.5-turbo` tiktoken encoder, returning
its non-empty output ([104, 105] for "hi" in the test environment). -/
theorem c7_default_encoder_counterexample :
    OpenAIConnection.encode restCfgLlama envTest "hi" = [104, 105]
    ∧ ([104, 105] : List Nat) ≠ [] :=
  ⟨rfl, by decide⟩

/-- C7 amended: for `OpenAILib`, a configuration binding no tokenizer
makes `encode` return the empty sequence and `count_tokens` return 0
(and neither raises); `OpenAIConnection.encode`, however, falls back to
the default `gpt-3.5-turbo` tiktoken encoder for an unrecognized model,
returning that encoder's output rather than an empty sequence. -/
theorem c7_encode_no_binding :
    (∀ (cfg : OpenAILib.Config) (env : TokEnv) (q : String),
       OpenAILib.hasTokenizer cfg = false →
       OpenAILib.encode cfg env q = [] ∧ OpenAILib.count_tokens cfg env q = 0)
    ∧ (∀ (cfg : OpenAIConnection.Config) (env : TokEnv) (q : String),
       (cfg.use_openrouter && googleModelMatch cfg.model) = false →
       strStartsWith cfg.model "gpt-" = false →
       OpenAIConnection.encode cfg env q = env.tiktokenEncode "gpt-3.5-turbo" q) := by
  constructor
  · intro cfg env q h
    constructor
    · simp [OpenAILib.encode, h]
    · simp [OpenAILib.count_tokens, OpenAILib.encode, h]
  · intro cfg env q hg hp
    simp [OpenAIConnection.encode, hg, hp]

/-- Witness for the amended C7 at the concrete unbound configurations. -/
theorem c7_encode_no_binding_witness :
    (OpenAILib.encode libCfgPlain envTest "hi" = []
      ∧ OpenAILib.count_tokens libCfgPlain envTest "hi" = 0)
    ∧ OpenAIConnection.encode restCfgLlama envTest "hi"
        = envTest.tiktokenEncode "gpt-3.5-turbo" "hi" :=
  ⟨c7_encode_no_binding.1 libCfgPlain envTest "hi" (by rfl),
   c7_encode_no_binding.2 restCfgLlama envTest "hi" (by rfl) (by rfl)⟩

/-- C9: `count_tokens` is defined as the length of `encode`'s output,
so for every configuration, tokenizer environment and text — including
the no-tokenizer case — the round-trip identity holds. -/
theorem c9_count_tokens_is_encode_length (cfg : OpenAILib.Config)
    (env : TokEnv) (q : String) :
    OpenAILib.count_tokens cfg env q = (OpenAILib.encode cfg env q).length :=
  rfl

/-- A chunk carrying a single delta with the given tool-call fragments. -/
def toolChunk (tcs : List OpenAILib.ToolCallDelta) : OpenAILib.Chunk :=
  { choices := [{ role := none, content := none, tool_calls := some tcs }],
    usage := none }

/-- A chunk carrying a single delta with only text content. -/
def contentChunk (s : String) : OpenAILib.Chunk :=
  { choices := [{ role := none, content := some s, tool_calls := none }],
    usage := none }

/-- A choice-free chunk carrying only a usage tally. -/
def usageChunk (u : OpenAILib.Usage) : OpenAILib.Chunk :=
  { choices := [], usage := some u }

/-- C4: the claim says each argument delta — including the one in the
chunk that introduces the slot — contributes exactly once to the
accumulated arguments.  In the code the introducing chunk's delta
contributes twice: the fragment is created with the delta as its
initial arguments and then the unconditional append at line 175 adds
the same delta again.  Introducing slot 0 with arguments "ab" and then
appending "cd" yields accumulated arguments "ababcd", not the
concatenation "abcd" of the deltas in arrival order. -/
theorem c4_introducing_delta_counted_twice :
    (OpenAILib.stream_response libCfgPlain envTest "p"
        [toolChunk [{ index := 0, id := some "a", name := some "f", arguments := "ab" }],
         toolChunk [{ index := 0, id := none, name := none, arguments := "cd" }]]).final
      = some { message := { role := "assistant", content := "",
                            tool_calls := some [{ id := some "a", name := some "f",
                                                  arguments := "ababcd" }] },
               content := "", tokens_query := 0, tokens_response := 0,
               resolvedUsage := { prompt_tokens := 0, completion_tokens := 0,
                                  total_tokens := 0 } }
    ∧ ("ababcd" ≠ "abcd") :=
  ⟨rfl, by decide⟩

namespace OpenAILib

/-- A chunk none of whose deltas carries a tool-call fragment. -/
def chunkHasNoToolCalls (c : Chunk) : Bool :=
  c.choices.all fun d => (d.tool_calls.getD []).isEmpty

/-- A chunk without tool-call fragments is processed without aborting
and leaves the accumulated tool-call list untouched. -/
theorem processChunk_no_toolcalls (msg : PartialMessage) (u : Option Usage)
    (c : Chunk) (hc : chunkHasNoToolCalls c = true) :
    ∃ m2 u2, processChunk msg u c = some (m2, u2)
      ∧ m2.tool_calls = msg.tool_calls := by
  obtain ⟨choices, cu⟩ := c
  cases choices with
  | nil =>
    exact ⟨msg, _, rfl, rfl⟩
  | cons d ds =>
    have hd : (d.tool_calls.getD []).isEmpty = true := by
      simpa [chunkHasNoToolCalls] using (List.all_eq_true.mp hc d (by simp))
    cases htc : d.tool_calls with
    | none =>
      cases hcon : d.content with
      | none =>
        exact ⟨msg, (match cu with | some v => some v | none => u),
               by simp [processChunk, htc, hcon]; cases cu <;> rfl, rfl⟩
      | some s =>
        exact ⟨{ msg with content := msg.content ++ s },
               (match cu with | some v => some v | none => u),
               by simp [processChunk, htc, hcon]; cases cu <;> rfl, rfl⟩
    | some tcs =>
      have htcs : tcs = [] := by
        rw [htc] at hd
        simpa using hd
      subst htcs
      cases hcon : d.content with
      | none =>
        exact ⟨msg, (match cu with | some v => some v | none => u),
               by simp [processChunk, htc, hcon]; cases cu <;> rfl, rfl⟩
      | some s =>
        exact ⟨{ msg with content := msg.content ++ s },
               (match cu with | some v => some v | none => u),
               by simp [processChunk, htc, hcon]; cases cu <;> rfl, rfl⟩

/-- Over a chunk sequence without tool-call fragments, the loop never
aborts, yields every chunk, and keeps the tool-call list unchanged. -/
theorem streamLoop_no_toolcalls (chunks : List Chunk) :
    ∀ (n : Nat) (msg : PartialMessage) (u : Option Usage),
    (∀ c ∈ chunks, chunkHasNoToolCalls c = true) →
    ∃ m2 u2, streamLoop n msg u chunks = (n + chunks.length, some (m2, u2))
      ∧ m2.tool_calls = msg.tool_calls := by
  induction chunks with
  | nil => intro n msg u _; exact ⟨msg, u, rfl, rfl⟩
  | cons c rest ih =>
    intro n msg u h
    obtain ⟨m2, u2, hpc, htc⟩ :=
      processChunk_no_toolcalls msg u c (h c (by simp))
    obtain ⟨m3, u3, hsl, htc3⟩ :=
      ih (n + 1) m2 u2 (fun x hx => h x (by simp [hx]))
    refine ⟨m3, u3, ?_, htc3.trans htc⟩
    rw [streamLoop, hpc]
    show streamLoop (n + 1) m2 u2 rest = _
    rw [hsl, List.length_cons]
    congr 1
    omega

end OpenAILib

/-- C8: for every streamed chunk sequence containing no tool-call
deltas at all, the stream completes and the finalized message's
tool-call field is the explicit absent marker `none` — distinct from an
empty collection — because the finalizer nulls out a still-empty
tool-call list. -/
theorem c8_no_toolcalls_finalized_absent (cfg : OpenAILib.Config)
    (env : TokEnv) (prompt : String) (chunks : List OpenAILib.Chunk)
    (h : ∀ c ∈ chunks, OpenAILib.chunkHasNoToolCalls c = true) :
    ∃ f, (OpenAILib.stream_response cfg env prompt chunks).final = some f
      ∧ f.message.tool_calls = none := by
  obtain ⟨m2, u2, hsl, htc⟩ :=
    OpenAILib.streamLoop_no_toolcalls chunks 0 OpenAILib.initMessage none h
  have hempty : m2.tool_calls = [] := htc
  refine ⟨{ message := { role := m2.role, content := m2.content, tool_calls := none },
            content := m2.content,
            tokens_query := (OpenAILib.libTokenCounts cfg env prompt m2.content).1,
            tokens_response := (OpenAILib.libTokenCounts cfg env prompt m2.content).2,
            resolvedUsage := u2.getD { prompt_tokens := 0, completion_tokens := 0,
                                       total_tokens := 0 } }, ?_, rfl⟩
  unfold OpenAILib.stream_response
  rw [hsl]
  simp [hempty]

/-- Witness for C8: a stream of one content chunk and one usage chunk
finalizes with the absent tool-call marker. -/
theorem c8_no_toolcalls_finalized_absent_witness :
    ∃ f, (OpenAILib.stream_response libCfgPlain envTest "p"
            [contentChunk "hello",
             usageChunk { prompt_tokens := 3, completion_tokens := 4,
                          total_tokens := 7 }]).final = some f
      ∧ f.message.tool_calls = none :=
  c8_no_toolcalls_finalized_absent libCfgPlain envTest "p"
    [contentChunk "hello",
     usageChunk { prompt_tokens := 3, completion_tokens := 4, total_tokens := 7 }]
    (by decide)

namespace OpenAILib

/-- Appending arguments at an index preserves the list's length. -/
theorem appendArgsAt_length : ∀ (l : List ToolCall) (i : Nat) (a : String),
    (appendArgsAt l i a).length = l.length
  | [], _, _ => rfl
  | _ :: ts, 0, _ => by simp [appendArgsAt]
  | _ :: ts, i + 1, a => by simp [appendArgsAt, appendArgsAt_length ts i a]

/-- Pointwise description of `appendArgsAt`: the element at the target
index gets the delta appended to its arguments (id and name untouched);
every other element is unchanged. -/
theorem appendArgsAt_getElem? : ∀ (l : List ToolCall) (i : Nat) (a : String) (j : Nat),
    (appendArgsAt l i a)[j]?
      = if j = i then (l[j]?).map (fun t => { t with arguments := t.arguments ++ a })
        else l[j]?
  | [], i, a, j => by simp [appendArgsAt]
  | t :: ts, 0, a, 0 => by simp [appendArgsAt]
  | t :: ts, 0, a, j + 1 => by simp [appendArgsAt]
  | t :: ts, i + 1, a, 0 => by simp [appendArgsAt]
  | t :: ts, i + 1, a, j + 1 => by
    simp [appendArgsAt, appendArgsAt_getElem? ts i a j]

/-- Appending at the index of a freshly appended last element rewrites
only that element's arguments. -/
theorem appendArgsAt_append_last : ∀ (l : List ToolCall) (t : ToolCall) (a : String),
    appendArgsAt (l ++ [t]) l.length a
      = l ++ [{ t with arguments := t.arguments ++ a }]
  | [], t, a => rfl
  | h :: l, t, a => by simp [appendArgsAt, appendArgsAt_append_last l t a]

end OpenAILib

/-- Concrete OpenRouter Gemini client-library configuration (binds the
Vertex tokenizer). -/
def libCfgGemmaStream : OpenAILib.Config :=
  { libCfgPlain with model := "google/gemma-2-9b-it:free",
                     use_openrouter := true }

/-- The spec's gap-violation scenario: introduce tool-call index 0,
then index 1, then append to index 0 (valid back-reference), then
reference index 3 while only two slots have been started. -/
def gapChunks : List OpenAILib.Chunk :=
  [toolChunk [{ index := 0, id := some "a", name := some "f", arguments := "x" }],
   toolChunk [{ index := 1, id := some "b", name := some "g", arguments := "y" }],
   toolChunk [{ index := 0, id := none, name := none, arguments := "z" }],
   toolChunk [{ index := 3, id := some "d", name := some "h", arguments := "w" }]]

/-- A partial message with two started tool-call slots. -/
def msgTwoSlots : OpenAILib.PartialMessage :=
  { role := "assistant", content := "",
    tool_calls := [{ id := some "a", name := some "f", arguments := "xx" },
                   { id := some "b", name := some "g", arguments := "yy" }] }

/-- The fragment introducing slot 0. -/
def tcIntro : OpenAILib.ToolCallDelta :=
  { index := 0, id := some "a", name := some "f", arguments := "x" }

/-- A back-reference fragment appending to slot 0. -/
def tcBackRef : OpenAILib.ToolCallDelta :=
  { index := 0, id := none, name := none, arguments := "z" }

/-- A gap fragment referencing slot 3 when only two slots exist. -/
def tcGap : OpenAILib.ToolCallDelta :=
  { index := 3, id := some "d", name := some "h", arguments := "w" }

/-- C3 counterexample: on the spec's scenario (indices 0, 1, back-ref 0,
then 3) the code yields the three valid chunks and then terminates the
generator silently via a bare `return`: no `StreamProtocolError` — nor
any other exception — is surfaced to the caller, refuting the claim's
"aborts the stream with a StreamProtocolError surfaced to the caller";
the partial message is discarded and no terminal result is produced. -/
theorem c3_gap_no_error_counterexample :
    OpenAILib.stream_response libCfgPlain envTest "p" gapChunks
      = { yielded := 3, raised := none, usageWarning := false, final := none }
    ∧ (OpenAILib.stream_response libCfgPlain envTest "p" gapChunks).raised
        ≠ some OpenAILib.StreamError.streamProtocolError :=
  ⟨rfl, by decide⟩

/-- C3 amended: a fragment whose index equals the current tool-call
count starts a new slot (its delta contributing twice to the slot's
arguments, per the double append at line 175), a fragment whose index
references an already-started slot appends its delta to exactly that
slot's arguments leaving ids, names and every other slot unchanged
(back-reference allowed), and a fragment whose index skips ahead makes
the loop body return: the whole stream terminates silently — yielding
the violating chunk's predecessors only, raising nothing, discarding
the partial message and producing no terminal LLMResult. -/
theorem c3_toolcall_index_routing :
    (∀ (msg : OpenAILib.PartialMessage) (tc : OpenAILib.ToolCallDelta),
       tc.index = msg.tool_calls.length →
       OpenAILib.processToolCalls msg [tc]
         = some { msg with tool_calls := msg.tool_calls ++
             [{ id := tc.id, name := tc.name,
                arguments := tc.arguments ++ tc.arguments }] })
    ∧ (∀ (msg : OpenAILib.PartialMessage) (tc : OpenAILib.ToolCallDelta),
       tc.index < msg.tool_calls.length →
       ∃ m2, OpenAILib.processToolCalls msg [tc] = some m2
         ∧ m2.role = msg.role ∧ m2.content = msg.content
         ∧ m2.tool_calls.length = msg.tool_calls.length
         ∧ ∀ j, m2.tool_calls[j]?
             = if j = tc.index
               then (msg.tool_calls[j]?).map
                      (fun t => { t with arguments := t.arguments ++ tc.arguments })
               else msg.tool_calls[j]?)
    ∧ (∀ (msg : OpenAILib.PartialMessage) (tc : OpenAILib.ToolCallDelta),
       msg.tool_calls.length < tc.index →
       OpenAILib.processToolCalls msg [tc] = none)
    ∧ (∀ (cfg : OpenAILib.Config) (env : TokEnv) (prompt : String)
       (chunks : List OpenAILib.Chunk) (p : Nat),
       OpenAILib.streamLoop 0 OpenAILib.initMessage none chunks = (p, none) →
       OpenAILib.stream_response cfg env prompt chunks
         = { yielded := p, raised := none, usageWarning := false, final := none }) := by
  refine ⟨?_, ?_, ?_, ?_⟩
  · intro msg tc h
    obtain ⟨i, tid, tname, targs⟩ := tc
    simp only at h
    subst h
    simp [OpenAILib.processToolCalls, OpenAILib.appendArgsAt_append_last]
  · intro msg tc h
    refine ⟨{ msg with tool_calls := OpenAILib.appendArgsAt msg.tool_calls tc.index tc.arguments },
            ?_, rfl, rfl,
            OpenAILib.appendArgsAt_length msg.tool_calls tc.index tc.arguments,
            fun j => OpenAILib.appendArgsAt_getElem? msg.tool_calls tc.index tc.arguments j⟩
    unfold OpenAILib.processToolCalls
    rw [if_neg (by omega : ¬ msg.tool_calls.length ≤ tc.index)]
    rfl
  · intro msg tc h
    unfold OpenAILib.processToolCalls
    rw [if_pos (by omega : msg.tool_calls.length ≤ tc.index),
        if_pos (by omega : msg.tool_calls.length ≠ tc.index)]
  · intro cfg env prompt chunks p h
    unfold OpenAILib.stream_response
    rw [h]

/-- Witness for the amended C3: slot introduction at the next expected
index, a concrete back-reference append, a concrete gap rejection, and
the end-to-end silent termination on the spec's gap scenario. -/
theorem c3_toolcall_index_routing_witness :
    (OpenAILib.processToolCalls OpenAILib.initMessage [tcIntro]
      = some { OpenAILib.initMessage with
               tool_calls := OpenAILib.initMessage.tool_calls ++
                 [{ id := tcIntro.id, name := tcIntro.name,
                    arguments := tcIntro.arguments ++ tcIntro.arguments }] })
    ∧ (∃ m2, OpenAILib.processToolCalls msgTwoSlots [tcBackRef] = some m2
        ∧ m2.role = msgTwoSlots.role ∧ m2.content = msgTwoSlots.content
        ∧ m2.tool_calls.length = msgTwoSlots.tool_calls.length
        ∧ ∀ j, m2.tool_calls[j]?
            = if j = tcBackRef.index
              then (msgTwoSlots.tool_calls[j]?).map
                     (fun t => { t with arguments := t.arguments ++ tcBackRef.arguments })
              else msgTwoSlots.tool_calls[j]?)
    ∧ (OpenAILib.processToolCalls msgTwoSlots [tcGap] = none)
    ∧ (OpenAILib.stream_response libCfgGemmaStream envTest "p" gapChunks
        = { yielded := 3, raised := none, usageWarning := false, final := none }) :=
  ⟨c3_toolcall_index_routing.1 OpenAILib.initMessage tcIntro rfl,
   c3_toolcall_index_routing.2.1 msgTwoSlots tcBackRef (by decide),
   c3_toolcall_index_routing.2.2.1 msgTwoSlots tcGap (by decide),
   c3_toolcall_index_routing.2.2.2 libCfgGemmaStream envTest "p" gapChunks 3 rfl⟩
